import Mathlib

/-
Verification development for the MLB "Mixture of Agents" notebook
(tutorials/phidata-mixture-of-agents/Mixture-of-Agents-Phidata-Groq.ipynb).

The notebook's tool functions (get_game_info, get_batting_stats,
get_pitching_stats), its setup-time default date, and its sequential
pipeline cell are embedded shallowly below.  External services
(statsapi.schedule, statsapi.boxscore_data, the LLM-backed Assistant.run
calls) are parameters of the embedded functions; Python exceptions are
modelled with the Except monad.
-/

namespace MoA

/-- Failure kinds.  `indexError` models Python's IndexError (raised by
`[0]` on an empty list), `keyError` models KeyError (raised by selecting
the missing `summary` column of an empty DataFrame), `apiError` models a
failure of an external model/service call.  `notFoundError` is the
dedicated no-matching-record error the specification speaks of; the
notebook never raises it, the constructor exists so that statements about
it can be written. -/
inductive Err where
  | indexError : Err
  | keyError : Err
  | notFoundError : Err
  | apiError : String → Err
  deriving DecidableEq, Repr

/-! ## The pandas `str.contains(team_name, case=False, na=False)` match

`Series.str.contains` defaults to `regex=True`, so the team name is a
regular-expression pattern searched with `re.IGNORECASE` (`re.search`
semantics: a match may start at any position).  The model below covers
the regex fragment consisting of literal characters and the `.`
metacharacter (which matches any character except a newline).  It is
exact for patterns that contain no metacharacter at all (every character
is then a literal for `re` too) and for patterns whose only
metacharacter is `.`; it is NOT faithful for the remaining
metacharacters (`^ $ * + ? { } [ ] \ | ( )`), which `re` treats as
quantifiers, anchors, groups or classes — or rejects as invalid
patterns — while this model would read them literally.  Every general
theorem below therefore restricts the fragment to the
metacharacter-free class, and the one statement exercising a
metacharacter uses `.`, where the model is exact.  `na=False` is
irrelevant here because every summary is a string. -/

/-- The characters Python's `re` does not treat as literals. -/
def regexMetachars : List Char :=
  ['.', '^', '$', '*', '+', '?', '[', ']', '\\', '|', '(', ')',
   Char.ofNat 123, Char.ofNat 125]

/-- One pattern character against one subject character, under
`re.IGNORECASE`: `.` matches anything but a newline, a literal character
matches up to case. -/
def reTokMatch (p c : Char) : Bool :=
  if p = '.' then c ≠ '\n' else p.toLower = c.toLower

/-- Does the pattern match a prefix of the subject? -/
def reMatchHere : List Char → List Char → Bool
  | [], _ => true
  | _ :: _, [] => false
  | p :: ps, c :: cs => reTokMatch p c && reMatchHere ps cs

/-- `re.search`: the pattern matches starting at some position. -/
def reSearch (pat : List Char) : List Char → Bool
  | [] => reMatchHere pat []
  | c :: cs => reMatchHere pat (c :: cs) || reSearch pat cs

/-- `s.str.contains(pat, case=False, na=False)` for one cell `s`. -/
def pdStrContains (s pat : String) : Bool :=
  reSearch pat.toList s.toList

/-! Spec-side matcher, for the refinement comparison only.  Modelled from
the spec's words: "a team-name fragment (case-insensitive substring match
against a schedule listing)" — the fragment is a literal string, every
character of it (including `.`) stands for itself. -/

/-- Literal case-insensitive comparison of one fragment character. -/
def specTokMatch (p c : Char) : Bool :=
  p.toLower = c.toLower

/-- Does the fragment literally match a prefix of the subject, ignoring
case? -/
def specMatchHere : List Char → List Char → Bool
  | [], _ => true
  | _ :: _, [] => false
  | p :: ps, c :: cs => specTokMatch p c && specMatchHere ps cs

/-- Literal case-insensitive substring occurrence. -/
def specSearch (pat : List Char) : List Char → Bool
  | [] => specMatchHere pat []
  | c :: cs => specMatchHere pat (c :: cs) || specSearch pat cs

/-- The spec's "case-insensitive substring match": the fragment occurs in
the summary when letter case is ignored. -/
def specContainsCI (s pat : String) : Bool :=
  specSearch pat.toList s.toList

/-! ## get_game_info -/

/-- One row of `pd.DataFrame(statsapi.schedule(...))`, restricted to the
columns the notebook reads. -/
structure ScheduleRow where
  game_id : Nat
  summary : String
  home_name : String
  home_score : Nat
  away_name : String
  away_score : Nat
  winning_team : String
  series_status : String
  deriving DecidableEq, Repr

/-- The dict the notebook builds before `json.dumps`. -/
structure GameInfo where
  game_id : String
  home_team : String
  home_score : Nat
  away_team : String
  away_score : Nat
  winning_team : String
  series_status : String
  deriving DecidableEq, Repr

/-- A JSON string literal (the notebook's field values contain no
characters that `json.dumps` would escape). -/
def jsonQuote (s : String) : String :=
  "\"" ++ s ++ "\""

/-- `json.dumps` of the game_info dict, keys in insertion order. -/
def gameInfoJson (g : GameInfo) : String :=
  "\x7b\"game_id\": " ++ jsonQuote g.game_id ++
  ", \"home_team\": " ++ jsonQuote g.home_team ++
  ", \"home_score\": " ++ toString g.home_score ++
  ", \"away_team\": " ++ jsonQuote g.away_team ++
  ", \"away_score\": " ++ toString g.away_score ++
  ", \"winning_team\": " ++ jsonQuote g.winning_team ++
  ", \"series_status\": " ++ jsonQuote g.series_status ++ "\x7d"

/-- Python list indexing: `xs[i]` raises IndexError when out of range. -/
def listIndex (xs : List α) (i : Nat) : Except Err α :=
  match xs.get? i with
  | some x => Except.ok x
  | none => Except.error Err.indexError

/-- `sched_df[sched_df['summary'].str.contains(team_name, case=False,
na=False)]`: the rows whose summary the pattern matches. -/
def scheduleFilter (sched : List ScheduleRow) (team_name : String) :
    List ScheduleRow :=
  sched.filter (fun r => pdStrContains r.summary team_name)

/-- The same filter with the spec's literal substring matcher, for the
refinement comparison. -/
def specScheduleFilter (sched : List ScheduleRow) (team_name : String) :
    List ScheduleRow :=
  sched.filter (fun r => specContainsCI r.summary team_name)

/-- `get_game_info(game_date, team_name)`.  `statsapiSchedule` stands for
`statsapi.schedule(start_date=game_date, end_date=game_date)`.  When the
schedule list is empty, `pd.DataFrame(sched)` has no columns and the
`sched_df['summary']` selection raises KeyError.  Otherwise each field is
read with `.tolist()[0]` from the filtered frame, which raises IndexError
when no row matched; `str()` is applied to the game id only.  On success
the dict is serialized with `json.dumps`. -/
def get_game_info (statsapiSchedule : String → List ScheduleRow)
    (game_date team_name : String) : Except Err String := do
  let sched := statsapiSchedule game_date
  if sched.isEmpty then
    Except.error Err.keyError
  else
    let game_info_df := scheduleFilter sched team_name
    let gid ← listIndex (game_info_df.map (fun r => toString r.game_id)) 0
    let home_team ← listIndex (game_info_df.map (fun r => r.home_name)) 0
    let home_score ← listIndex (game_info_df.map (fun r => r.home_score)) 0
    let away_team ← listIndex (game_info_df.map (fun r => r.away_name)) 0
    let away_score ← listIndex (game_info_df.map (fun r => r.away_score)) 0
    let winning_team ← listIndex (game_info_df.map (fun r => r.winning_team)) 0
    let series_status ← listIndex (game_info_df.map (fun r => r.series_status)) 0
    Except.ok (gameInfoJson
      ⟨gid, home_team, home_score, away_team, away_score,
        winning_team, series_status⟩)

/-- Two successive invocations of `get_game_info` with the same query
while the upstream schedule data (`statsapiSchedule`) is unchanged. -/
def invokeTwice (statsapiSchedule : String → List ScheduleRow)
    (game_date team_name : String) : Except Err String × Except Err String :=
  (get_game_info statsapiSchedule game_date team_name,
   get_game_info statsapiSchedule game_date team_name)

/-! ## The setup-time default date

`default_date = datetime.now().date() - timedelta(1)` is executed once,
in the cell that defines the agents, and interpolated into the
researcher's instruction f-string at that moment.  Days are modelled as
integers. -/

/-- `datetime.now().date() - timedelta(1)` evaluated at setup time. -/
def default_date (setupDay : Int) : Int :=
  setupDay - 1

/-- The instruction string of `mlb_researcher`, with the date rendered as
a day number: the f-string is built at setup time, so it carries
`default_date setupDay` forever after. -/
def researcherInstruction (setupDay : Int) : String :=
  "Parse the Team and date (use " ++ toString (default_date setupDay) ++
  " if user does not specify) from the user question."

/-- The default date in force for a pipeline invocation at
`invocationDay`, after the agent-definition cell ran at `setupDay`: the
value baked into the instruction string at setup, independent of the
invocation time. -/
def researcherDefaultDate (setupDay invocationDay : Int) : Int :=
  default_date setupDay

/-! ## The pipeline cell

Each `Assistant.run(..., stream=False)` call is an external LLM-backed
computation that either returns a string or raises; it is a parameter of
type `String → Except Err String`.  The cell itself has no try/except. -/

/-- The behaviours of the seven `Assistant.run` entry points used by the
pipeline cell. -/
structure Env where
  researcher : String → Except Err String
  battingStatistician : String → Except Err String
  pitchingStatistician : String → Except Err String
  writerLlama : String → Except Err String
  writerGemma : String → Except Err String
  writerMixtral : String → Except Err String
  editor : String → Except Err String

/-- The three writer calls of the pipeline cell and the `editor_inputs`
list they produce, in the order the cell writes them: `llama_writer`,
`gemma_writer`, `mixtral_writer` — the declaration order of the writer
agents.  A raised exception aborts the sequence. -/
def fanOutWriters (env : Env) (stats : String) :
    Except Err (List String) := do
  let llama_writer ← env.writerLlama stats
  let gemma_writer ← env.writerGemma stats
  let mixtral_writer ← env.writerMixtral stats
  Except.ok [llama_writer, gemma_writer, mixtral_writer]

/-- The whole pipeline cell: researcher, the two statisticians, the
`stats` f-string, the three writers, then the editor on
`"\n".join(editor_inputs)`. -/
def pipeline (env : Env) (user_prompt : String) : Except Err String := do
  let game_information ← env.researcher user_prompt
  let batting_stats ← env.battingStatistician game_information
  let pitching_stats ← env.pitchingStatistician game_information
  let stats := "Statistical summaries for the game:\n\nBatting stats:\n" ++
    batting_stats ++ "\n\nPitching stats:\n" ++ pitching_stats
  let editor_inputs ← fanOutWriters env stats
  env.editor (String.intercalate "\n" editor_inputs)

/-! ## get_batting_stats / get_pitching_stats -/

/-- One row of `boxscores['awayBatters']` / `boxscores['homeBatters']`,
restricted to the columns the notebook reads.  The first row of each of
these raw tables is a header/label row, which is why the notebook slices
it off with `.iloc[1:]`. -/
structure BattingBoxRow where
  name : String
  position : String
  ab : String
  r : String
  h : String
  hr : String
  rbi : String
  bb : String
  sb : String
  deriving DecidableEq, Repr

/-- One row of `boxscores['awayPitchers']` / `boxscores['homePitchers']`,
restricted to the columns the notebook reads. -/
structure PitchingBoxRow where
  name : String
  ip : String
  h : String
  r : String
  er : String
  bb : String
  k : String
  note : String
  deriving DecidableEq, Repr

/-- One row of `pd.DataFrame(boxscores['playerInfo']).T.reset_index()`:
the player-id key becomes the `index` column. -/
structure PlayerInfoRow where
  index : String
  id : Nat
  boxscoreName : String
  fullName : String
  deriving DecidableEq, Repr

/-- The parts of `statsapi.boxscore_data(game_id)` the notebook reads:
`teamInfo['away']['teamName']` and `teamInfo['home']['teamName']` are the
two team-name strings. -/
structure BoxscoreData where
  playerInfo : List PlayerInfoRow
  awayBatters : List BattingBoxRow
  homeBatters : List BattingBoxRow
  awayPitchers : List PitchingBoxRow
  homePitchers : List PitchingBoxRow
  awayTeamName : String
  homeTeamName : String
  deriving DecidableEq, Repr

/-- `left.merge(players, left_on='name', right_on='boxscoreName')`:
pandas' default inner join.  Each left row is paired with every
player-info row whose `boxscoreName` equals its name (via the accessor
`nameOf`); left rows without a counterpart produce nothing, and the left
(row-then-match) order is preserved. -/
def mergeOnName (nameOf : α → String) (left : List α)
    (players : List PlayerInfoRow) : List (α × PlayerInfoRow) :=
  left.flatMap (fun b =>
    (players.filter (fun p => p.boxscoreName == nameOf b)).map (fun p => (b, p)))

/-- `pd.concat([away.iloc[1:], home.iloc[1:]])` for the batting tables,
each row paired with the `team_name` column value assigned to its side. -/
def battersConcat (b : BoxscoreData) : List (BattingBoxRow × String) :=
  (b.awayBatters.drop 1).map (fun r => (r, b.awayTeamName)) ++
  (b.homeBatters.drop 1).map (fun r => (r, b.homeTeamName))

/-- `batters_box_df`: the concatenated batting rows inner-joined to the
player-info table on name = boxscoreName. -/
def batters_box_df (b : BoxscoreData) :
    List ((BattingBoxRow × String) × PlayerInfoRow) :=
  mergeOnName (fun rb => rb.1.name) (battersConcat b) b.playerInfo

/-- The same for the pitching tables. -/
def pitchersConcat (b : BoxscoreData) : List (PitchingBoxRow × String) :=
  (b.awayPitchers.drop 1).map (fun r => (r, b.awayTeamName)) ++
  (b.homePitchers.drop 1).map (fun r => (r, b.homeTeamName))

/-- `pitchers_box_df`: the concatenated pitching rows inner-joined to the
player-info table on name = boxscoreName. -/
def pitchers_box_df (b : BoxscoreData) :
    List ((PitchingBoxRow × String) × PlayerInfoRow) :=
  mergeOnName (fun rb => rb.1.name) (pitchersConcat b) b.playerInfo

/-- One record of
`batters_box_df[['team_name','fullName','position','ab','r','h','hr','rbi','bb','sb']]`. -/
structure BattingRecord where
  team_name : String
  fullName : String
  position : String
  ab : String
  r : String
  h : String
  hr : String
  rbi : String
  bb : String
  sb : String
  deriving DecidableEq, Repr

/-- One record of
`pitchers_box_df[['team_name','fullName','ip','h','r','er','bb','k','note']]`. -/
structure PitchingRecord where
  team_name : String
  fullName : String
  ip : String
  h : String
  r : String
  er : String
  bb : String
  k : String
  note : String
  deriving DecidableEq, Repr

/-- `to_dict(orient='records')` of the selected batting columns. -/
def batting_stats_records (b : BoxscoreData) : List BattingRecord :=
  (batters_box_df b).map (fun x =>
    ⟨x.1.2, x.2.fullName, x.1.1.position, x.1.1.ab, x.1.1.r, x.1.1.h,
      x.1.1.hr, x.1.1.rbi, x.1.1.bb, x.1.1.sb⟩)

/-- `to_dict(orient='records')` of the selected pitching columns. -/
def pitching_stats_records (b : BoxscoreData) : List PitchingRecord :=
  (pitchers_box_df b).map (fun x =>
    ⟨x.1.2, x.2.fullName, x.1.1.ip, x.1.1.h, x.1.1.r, x.1.1.er,
      x.1.1.bb, x.1.1.k, x.1.1.note⟩)

/-- `json.dumps` of one batting record, keys in column order. -/
def battingRecordJson (rec : BattingRecord) : String :=
  "\x7b\"team_name\": " ++ jsonQuote rec.team_name ++
  ", \"fullName\": " ++ jsonQuote rec.fullName ++
  ", \"position\": " ++ jsonQuote rec.position ++
  ", \"ab\": " ++ jsonQuote rec.ab ++
  ", \"r\": " ++ jsonQuote rec.r ++
  ", \"h\": " ++ jsonQuote rec.h ++
  ", \"hr\": " ++ jsonQuote rec.hr ++
  ", \"rbi\": " ++ jsonQuote rec.rbi ++
  ", \"bb\": " ++ jsonQuote rec.bb ++
  ", \"sb\": " ++ jsonQuote rec.sb ++ "\x7d"

/-- `json.dumps` of one pitching record, keys in column order. -/
def pitchingRecordJson (rec : PitchingRecord) : String :=
  "\x7b\"team_name\": " ++ jsonQuote rec.team_name ++
  ", \"fullName\": " ++ jsonQuote rec.fullName ++
  ", \"ip\": " ++ jsonQuote rec.ip ++
  ", \"h\": " ++ jsonQuote rec.h ++
  ", \"r\": " ++ jsonQuote rec.r ++
  ", \"er\": " ++ jsonQuote rec.er ++
  ", \"bb\": " ++ jsonQuote rec.bb ++
  ", \"k\": " ++ jsonQuote rec.k ++
  ", \"note\": " ++ jsonQuote rec.note ++ "\x7d"

/-- `json.dumps` of a list of records. -/
def jsonList (xs : List String) : String :=
  "[" ++ String.intercalate ", " xs ++ "]"

/-- `get_batting_stats(game_id)`.  `boxscoreData` stands for
`statsapi.boxscore_data(game_id)`. -/
def get_batting_stats (boxscoreData : String → BoxscoreData)
    (game_id : String) : String :=
  jsonList ((batting_stats_records (boxscoreData game_id)).map battingRecordJson)

/-- `get_pitching_stats(game_id)`. -/
def get_pitching_stats (boxscoreData : String → BoxscoreData)
    (game_id : String) : String :=
  jsonList ((pitching_stats_records (boxscoreData game_id)).map pitchingRecordJson)

/-! ## Concrete instances used to evaluate the model -/

/-- An environment in which all seven external calls succeed. -/
def envAllOk : Env :=
  ⟨fun _ => Except.ok "game information", fun _ => Except.ok "batting",
   fun _ => Except.ok "pitching", fun _ => Except.ok "llama article",
   fun _ => Except.ok "gemma article", fun _ => Except.ok "mixtral article",
   fun s => Except.ok s⟩

/-- An environment in which the llama writer's model call fails and every
other call succeeds. -/
def envLlamaFails : Env :=
  ⟨fun _ => Except.ok "game information", fun _ => Except.ok "batting",
   fun _ => Except.ok "pitching", fun _ => Except.error (Err.apiError "boom"),
   fun _ => Except.ok "gemma article", fun _ => Except.ok "mixtral article",
   fun s => Except.ok s⟩

/-- An environment in which the gemma writer's model call fails and every
other call succeeds. -/
def envGemmaFails : Env :=
  ⟨fun _ => Except.ok "game information", fun _ => Except.ok "batting",
   fun _ => Except.ok "pitching", fun _ => Except.ok "llama article",
   fun _ => Except.error (Err.apiError "503"), fun _ => Except.ok "mixtral article",
   fun s => Except.ok s⟩

/-- A one-game schedule whose summary does not mention the Yankees. -/
def schedNoMatch : List ScheduleRow :=
  [⟨745, "Rays @ Orioles (Final)", "Baltimore Orioles", 5, "Tampa Bay Rays", 3,
    "Baltimore Orioles", "BAL wins 2-1"⟩]

/-- An upstream schedule service with games on 2024-07-14 only. -/
def upstreamNoMatch : String → List ScheduleRow :=
  fun d => if d = "2024-07-14" then schedNoMatch else []

/-- A schedule on which the fragment "nyy" matches both rows. -/
def schedTwo : List ScheduleRow :=
  [⟨1, "NYY A", "H1", 2, "A1", 1, "H1", "S1"⟩,
   ⟨2, "NYY B", "H2", 4, "A2", 3, "H2", "S2"⟩]

/-- An upstream schedule service returning `schedTwo` on every date. -/
def upstreamTwo : String → List ScheduleRow :=
  fun _ => schedTwo

/-- A one-row schedule separating the regex reading of the team fragment
from the literal-substring reading: its summary "ab" contains no dot, yet
the pattern "." matches it. -/
def schedDot : List ScheduleRow :=
  [⟨9, "ab", "H", 1, "A", 0, "H", "S"⟩]

/-- A player-info row for the join examples. -/
def playerJudge : PlayerInfoRow :=
  ⟨"ID592450", 592450, "Judge", "Aaron Judge"⟩

/-- The header/label row that leads each raw batting table. -/
def battingHeaderRow : BattingBoxRow :=
  ⟨"Batters", "", "AB", "R", "H", "HR", "RBI", "BB", "SB"⟩

/-- A real batting line for Judge. -/
def battingJudgeRow : BattingBoxRow :=
  ⟨"Judge", "RF", "4", "1", "2", "1", "3", "0", "0"⟩

/-- The header/label row that leads each raw pitching table. -/
def pitchingHeaderRow : PitchingBoxRow :=
  ⟨"Pitchers", "IP", "H", "R", "ER", "BB", "K", ""⟩

/-- A real pitching line, with a name matching no player-info row. -/
def pitchingGhostRow : PitchingBoxRow :=
  ⟨"Ghost", "1.0", "0", "0", "0", "0", "1", ""⟩

/-- A boxscore exercising the joins: Judge's batting row has a
player-info counterpart, the Ghost pitching row has none. -/
def boxJoin : BoxscoreData :=
  ⟨[playerJudge],
   [battingHeaderRow, battingJudgeRow], [battingHeaderRow],
   [pitchingHeaderRow, pitchingGhostRow], [pitchingHeaderRow],
   "Yankees", "Orioles"⟩

/-- The merged batting pair the join on `boxJoin` produces. -/
def joinPair : (BattingBoxRow × String) × PlayerInfoRow :=
  ((battingJudgeRow, "Yankees"), playerJudge)

/-- A boxscore whose four raw tables have at most one row each. -/
def boxShort : BoxscoreData :=
  ⟨[playerJudge],
   [battingHeaderRow], [],
   [pitchingHeaderRow], [],
   "Yankees", "Orioles"⟩

/-! ## Theorems -/

/-- Claim C1 counterexample: when the llama writer's underlying call
fails, no length-3 result sequence is handed to the aggregation stage at
all — the fan-out aborts — so the claim's "regardless of how many units
failed" is false on the code. -/
theorem c1_counterexample :
    ¬ ∃ xs : List String,
      fanOutWriters envLlamaFails "stats" = Except.ok xs ∧ xs.length = 3 := by
  rintro ⟨xs, hx, -⟩
  have h : (Except.error (Err.apiError "boom") : Except Err (List String)) =
      Except.ok xs := hx
  exact Except.noConfusion h

/-- Claim C1 (amended): when all three writer calls succeed, the
`editor_inputs` sequence handed to the aggregation stage is exactly the
three results in the declaration order of the writer agents (llama,
gemma, mixtral), hence has length 3; the notebook's calls are sequential,
so completion order cannot differ from declaration order. -/
theorem c1_fanout_order (env : Env) (stats l g m : String)
    (hl : env.writerLlama stats = Except.ok l)
    (hg : env.writerGemma stats = Except.ok g)
    (hm : env.writerMixtral stats = Except.ok m) :
    fanOutWriters env stats = Except.ok [l, g, m] ∧
      ([l, g, m] : List String).length = 3 := by
  refine ⟨?_, rfl⟩
  unfold fanOutWriters
  rw [hl, hg, hm]
  rfl

/-- Witness for `c1_fanout_order` at a concrete environment. -/
theorem c1_fanout_order_witness :
    fanOutWriters envAllOk "stats" =
      Except.ok ["llama article", "gemma article", "mixtral article"] ∧
    (["llama article", "gemma article", "mixtral article"] : List String).length = 3 :=
  c1_fanout_order envAllOk "stats" "llama article" "gemma article"
    "mixtral article" rfl rfl rfl

/-- Claim C2 counterexample: when the gemma writer's model call fails,
the fault propagates out of the fan-out uncaught (the fan-out and the
whole pipeline evaluate to that very error) and no partial result
sequence is produced, contradicting the claimed catch-inside-the-unit
behaviour. -/
theorem c2_counterexample :
    fanOutWriters envGemmaFails "stats" = Except.error (Err.apiError "503") ∧
    pipeline envGemmaFails "write a recap of the Yankees game on July 14, 2024" =
      Except.error (Err.apiError "503") ∧
    ¬ ∃ xs : List String,
      fanOutWriters envGemmaFails "stats" = Except.ok xs := by
  refine ⟨rfl, rfl, ?_⟩
  rintro ⟨xs, hx⟩
  have h : (Except.error (Err.apiError "503") : Except Err (List String)) =
      Except.ok xs := hx
  exact Except.noConfusion h

/-- Claim C2 (amended): a failure of a writer's underlying model call is
not caught anywhere in the pipeline cell: it propagates out of the unit
invocation unchanged, the fan-out aborts with that same error, and the
units declared after the failing one contribute nothing. -/
theorem c2_fault_propagation (env : Env) (stats : String) (e : Err) :
    (env.writerLlama stats = Except.error e →
      fanOutWriters env stats = Except.error e) ∧
    (∀ l, env.writerLlama stats = Except.ok l →
      env.writerGemma stats = Except.error e →
      fanOutWriters env stats = Except.error e) ∧
    (∀ l g, env.writerLlama stats = Except.ok l →
      env.writerGemma stats = Except.ok g →
      env.writerMixtral stats = Except.error e →
      fanOutWriters env stats = Except.error e) := by
  refine ⟨fun h => ?_, fun l hl h => ?_, fun l g hl hg h => ?_⟩
  · unfold fanOutWriters; rw [h]; rfl
  · unfold fanOutWriters; rw [hl, h]; rfl
  · unfold fanOutWriters; rw [hl, hg, h]; rfl

/-- Witness for `c2_fault_propagation` at a concrete environment. -/
theorem c2_fault_propagation_witness :
    fanOutWriters envLlamaFails "stats" = Except.error (Err.apiError "boom") :=
  (c2_fault_propagation envLlamaFails "stats" (Err.apiError "boom")).1 rfl

/-- Claim C6 counterexample: with the agent-definition cell executed on
day 100 and the pipeline invoked on day 105, the default date the
researcher carries is 99 — not 104, yesterday relative to the
invocation. -/
theorem c6_counterexample :
    researcherDefaultDate 100 105 = 99 ∧ (99 : Int) ≠ 105 - 1 := by
  decide

/-- Claim C6 (amended): the default date is yesterday relative to the
time the agent-definition cell is executed, baked into the researcher's
instruction string once at setup; every later invocation reuses it, so
it does not depend on the invocation time. -/
theorem c6_setup_time_default (setupDay invocationDay otherDay : Int) :
    researcherDefaultDate setupDay invocationDay = setupDay - 1 ∧
    researcherDefaultDate setupDay invocationDay =
      researcherDefaultDate setupDay otherDay ∧
    researcherInstruction setupDay =
      "Parse the Team and date (use " ++ toString (setupDay - 1) ++
        " if user does not specify) from the user question." :=
  ⟨rfl, rfl, rfl⟩

/-- Claim C8: invoking `get_game_info` twice with the same query while
the upstream schedule data is unchanged yields bit-identical serialized
context documents — in the embedding the adapter is a pure function of
the upstream table and the query, so the two results coincide. -/
theorem c8_idempotent (statsapiSchedule : String → List ScheduleRow)
    (game_date team_name : String) :
    (invokeTwice statsapiSchedule game_date team_name).1 =
      (invokeTwice statsapiSchedule game_date team_name).2 :=
  rfl

/-- Claim C7 counterexample: on a schedule whose only summary is "ab",
the fragment "." selects the row under the code's matcher (pandas
`str.contains` with its default `regex=True`) but not under the spec's
case-insensitive literal substring matcher, so "matches iff the fragment
occurs as a case-insensitive substring" is false. -/
theorem c7_counterexample :
    scheduleFilter schedDot "." ≠ specScheduleFilter schedDot "." := by
  decide

/-- Claim C10: the team-name argument is interpreted as a regex pattern,
not a literal substring — there is a schedule and a team-name input with
a regex metacharacter on which the matched set differs from literal
case-insensitive substring matching. -/
theorem c10_regex_semantics :
    ∃ (sched : List ScheduleRow) (team_name : String),
      scheduleFilter sched team_name ≠ specScheduleFilter sched team_name :=
  ⟨schedDot, ".", by decide⟩

/-- Claim C3 counterexample: on a date with one game that does not
involve the Yankees, `get_game_info` fails with the generic IndexError
raised by `[0]` on an empty list, which is not the dedicated
`notFoundError` the claim promises. -/
theorem c3_counterexample :
    get_game_info upstreamNoMatch "2024-07-14" "Yankees" =
      Except.error Err.indexError ∧
    Err.indexError ≠ Err.notFoundError := by
  exact ⟨rfl, by decide⟩

/-- Claim C3 (amended): when no schedule entry matches the team-name
fragment, `get_game_info` fails with a generic fault, never a dedicated
no-matching-record error: IndexError from `.tolist()[0]` on the empty
filtered frame when the day's schedule is nonempty, and KeyError from
the missing `summary` column when the day has no games at all. -/
theorem c3_no_match_errors (statsapiSchedule : String → List ScheduleRow)
    (game_date team_name : String) :
    (statsapiSchedule game_date ≠ [] →
      scheduleFilter (statsapiSchedule game_date) team_name = [] →
      get_game_info statsapiSchedule game_date team_name =
        Except.error Err.indexError) ∧
    (statsapiSchedule game_date = [] →
      get_game_info statsapiSchedule game_date team_name =
        Except.error Err.keyError) := by
  constructor
  · intro hne hfil
    rcases h : statsapiSchedule game_date with _ | ⟨a, as⟩
    · exact absurd h hne
    · rw [h] at hfil
      unfold get_game_info
      rw [h]
      simp only [hfil]
      rfl
  · intro hnil
    unfold get_game_info
    rw [hnil]
    rfl

/-- Witness for `c3_no_match_errors` at concrete queries. -/
theorem c3_no_match_errors_witness :
    get_game_info upstreamNoMatch "2024-07-14" "Yankees" =
      Except.error Err.indexError ∧
    get_game_info upstreamNoMatch "2024-08-01" "Yankees" =
      Except.error Err.keyError :=
  ⟨(c3_no_match_errors upstreamNoMatch "2024-07-14" "Yankees").1
      (by decide) (by decide),
   (c3_no_match_errors upstreamNoMatch "2024-08-01" "Yankees").2 (by decide)⟩

/-- Claim C4: when the team-name fragment matches more than one schedule
entry, `get_game_info` returns the serialized document built entirely
from the first row of the filtered schedule: game id, team names, both
scores, winner and series status. -/
theorem c4_first_match (statsapiSchedule : String → List ScheduleRow)
    (game_date team_name : String) (r : ScheduleRow) (rest : List ScheduleRow)
    (hfil : scheduleFilter (statsapiSchedule game_date) team_name = r :: rest)
    (hmulti : 2 ≤ (scheduleFilter (statsapiSchedule game_date) team_name).length) :
    get_game_info statsapiSchedule game_date team_name =
      Except.ok (gameInfoJson
        ⟨toString r.game_id, r.home_name, r.home_score, r.away_name,
          r.away_score, r.winning_team, r.series_status⟩) := by
  rcases h : statsapiSchedule game_date with _ | ⟨a, as⟩
  · rw [h] at hfil
    simp [scheduleFilter] at hfil
  · rw [h] at hfil
    unfold get_game_info
    rw [h]
    simp only [hfil]
    rfl

/-- Witness for `c4_first_match`: on a schedule where "nyy" matches both
rows, the returned document is built from the first one. -/
theorem c4_first_match_witness :
    get_game_info upstreamTwo "2024-07-14" "nyy" =
      Except.ok (gameInfoJson ⟨"1", "H1", 2, "A1", 1, "H1", "S1"⟩) :=
  c4_first_match upstreamTwo "2024-07-14" "nyy"
    ⟨1, "NYY A", "H1", 2, "A1", 1, "H1", "S1"⟩
    [⟨2, "NYY B", "H2", 4, "A2", 3, "H2", "S2"⟩]
    (by decide) (by decide)

/-- A non-dot pattern character matches exactly as the literal matcher
does. -/
theorem reTokMatch_eq_spec (p c : Char) (hp : p ≠ '.') :
    reTokMatch p c = specTokMatch p c := by
  simp [reTokMatch, specTokMatch, hp]

/-- For a dot-free pattern the regex prefix match agrees with the
literal prefix match. -/
theorem reMatchHere_eq_spec (pat : List Char) (h : ∀ c ∈ pat, c ≠ '.') :
    ∀ s, reMatchHere pat s = specMatchHere pat s := by
  induction pat with
  | nil => intro s; rfl
  | cons p ps ih =>
    intro s
    cases s with
    | nil => rfl
    | cons c cs =>
      have hp := h p (List.mem_cons_self p ps)
      have hps : ∀ x ∈ ps, x ≠ '.' := fun x hx => h x (List.mem_cons_of_mem p hx)
      simp [reMatchHere, specMatchHere, reTokMatch_eq_spec p c hp, ih hps]

/-- For a dot-free pattern the regex search agrees with the literal
substring search. -/
theorem reSearch_eq_spec (pat : List Char) (h : ∀ c ∈ pat, c ≠ '.') :
    ∀ s, reSearch pat s = specSearch pat s := by
  intro s
  induction s with
  | nil => simpa using reMatchHere_eq_spec pat h []
  | cons c cs ih => simp [reSearch, specSearch, reMatchHere_eq_spec pat h, ih]

/-- Claim C7 (amended): when the team-name fragment contains no regex
metacharacter (none of `. ^ $ * + ? \x7b \x7d [ ] \ | ( )`), a schedule
entry is selected iff the fragment occurs in its summary as a
case-insensitive literal substring, and the code's filter equals the
spec's filter.  Because `str.contains` defaults to `regex=True`,
fragments containing a metacharacter are interpreted as patterns and the
matched set can differ, as `c7_counterexample` shows at the
fragment ".". -/
theorem c7_match_semantics (sched : List ScheduleRow) (team_name : String)
    (hlit : ∀ c ∈ team_name.toList, c ∉ regexMetachars) :
    scheduleFilter sched team_name = specScheduleFilter sched team_name ∧
    ∀ r, r ∈ scheduleFilter sched team_name ↔
      r ∈ sched ∧ specContainsCI r.summary team_name = true := by
  have hnd : ∀ c ∈ team_name.toList, c ≠ '.' := by
    intro c hc he
    apply hlit c hc
    rw [he]
    decide
  have hfil : scheduleFilter sched team_name =
      specScheduleFilter sched team_name := by
    unfold scheduleFilter specScheduleFilter
    apply List.filter_congr
    intro r hr
    exact reSearch_eq_spec team_name.toList hnd r.summary.toList
  refine ⟨hfil, fun r => ?_⟩
  rw [hfil]
  simp [specScheduleFilter, List.mem_filter]

/-- Witness for `c7_match_semantics` at a concrete metacharacter-free
fragment. -/
theorem c7_match_semantics_witness :
    scheduleFilter schedTwo "nyy" = specScheduleFilter schedTwo "nyy" :=
  (c7_match_semantics schedTwo "nyy" (by decide)).1

/-- Every pair produced by the inner join comes from a left row and a
player-info row agreeing on the name key. -/
theorem mergeOnName_mem {α : Type} (nameOf : α → String) (left : List α)
    (players : List PlayerInfoRow) (x : α × PlayerInfoRow)
    (hx : x ∈ mergeOnName nameOf left players) :
    x.1 ∈ left ∧ x.2 ∈ players ∧ x.2.boxscoreName = nameOf x.1 := by
  simp only [mergeOnName, List.mem_flatMap, List.mem_map, List.mem_filter,
    beq_iff_eq] at hx
  obtain ⟨a, ha, p, ⟨hp, hbn⟩, rfl⟩ := hx
  exact ⟨ha, hp, hbn⟩

/-- A left row whose name has no counterpart in the player-info table
contributes nothing to the join. -/
theorem mergeOnName_drop {α : Type} (nameOf : α → String) (left : List α)
    (players : List PlayerInfoRow) (l : α)
    (hnone : ∀ p ∈ players, p.boxscoreName ≠ nameOf l) :
    ∀ x ∈ mergeOnName nameOf left players, x.1 ≠ l := by
  intro x hx hxl
  obtain ⟨-, hp, hbn⟩ := mergeOnName_mem nameOf left players x hx
  rw [hxl] at hbn
  exact hnone x.2 hp hbn

/-- Claim C5: both detail fetchers join the per-side boxscore rows to
the player-info table on the shared name key (name = boxscoreName);
every record in the output therefore has a matching player-info entry,
and a boxscore row whose name has no counterpart is dropped from the
output rather than failing the call. -/
theorem c5_inner_join (b : BoxscoreData) :
    (∀ rec ∈ batting_stats_records b,
      ∃ p ∈ b.playerInfo, p.fullName = rec.fullName) ∧
    (∀ rec ∈ pitching_stats_records b,
      ∃ p ∈ b.playerInfo, p.fullName = rec.fullName) ∧
    (∀ x ∈ batters_box_df b,
      x.2 ∈ b.playerInfo ∧ x.2.boxscoreName = x.1.1.name) ∧
    (∀ x ∈ pitchers_box_df b,
      x.2 ∈ b.playerInfo ∧ x.2.boxscoreName = x.1.1.name) ∧
    (∀ l, (∀ p ∈ b.playerInfo, p.boxscoreName ≠ l.1.name) →
      ∀ x ∈ batters_box_df b, x.1 ≠ l) ∧
    (∀ l, (∀ p ∈ b.playerInfo, p.boxscoreName ≠ l.1.name) →
      ∀ x ∈ pitchers_box_df b, x.1 ≠ l) := by
  refine ⟨?_, ?_, ?_, ?_, ?_, ?_⟩
  · intro rec hrec
    simp only [batting_stats_records, List.mem_map] at hrec
    obtain ⟨x, hx, rfl⟩ := hrec
    obtain ⟨-, hp, -⟩ := mergeOnName_mem _ _ _ x hx
    exact ⟨x.2, hp, rfl⟩
  · intro rec hrec
    simp only [pitching_stats_records, List.mem_map] at hrec
    obtain ⟨x, hx, rfl⟩ := hrec
    obtain ⟨-, hp, -⟩ := mergeOnName_mem _ _ _ x hx
    exact ⟨x.2, hp, rfl⟩
  · intro x hx
    obtain ⟨-, hp, hbn⟩ := mergeOnName_mem _ _ _ x hx
    exact ⟨hp, hbn⟩
  · intro x hx
    obtain ⟨-, hp, hbn⟩ := mergeOnName_mem _ _ _ x hx
    exact ⟨hp, hbn⟩
  · intro l hl
    exact mergeOnName_drop _ _ _ l hl
  · intro l hl
    exact mergeOnName_drop _ _ _ l hl

/-- Witness for `c5_inner_join`: the join on `boxJoin` pairs Judge's
batting row with his player-info row. -/
theorem c5_inner_join_witness :
    joinPair.2 ∈ boxJoin.playerInfo ∧
    joinPair.2.boxscoreName = joinPair.1.1.name :=
  (c5_inner_join boxJoin).2.2.1 joinPair (by decide)

/-- Claim C9: both detail fetchers slice off the first row of each
side's raw table (`.iloc[1:]`), so only rows after the first of the away
table and of the home table can reach the output, and a per-side table
with at most one row contributes no records. -/
theorem c9_drop_first (b : BoxscoreData) :
    (∀ x ∈ batters_box_df b,
      x.1.1 ∈ b.awayBatters.drop 1 ∨ x.1.1 ∈ b.homeBatters.drop 1) ∧
    (∀ x ∈ pitchers_box_df b,
      x.1.1 ∈ b.awayPitchers.drop 1 ∨ x.1.1 ∈ b.homePitchers.drop 1) ∧
    (b.awayBatters.length ≤ 1 → b.homeBatters.length ≤ 1 →
      batting_stats_records b = []) ∧
    (b.awayPitchers.length ≤ 1 → b.homePitchers.length ≤ 1 →
      pitching_stats_records b = []) := by
  refine ⟨?_, ?_, ?_, ?_⟩
  · intro x hx
    obtain ⟨h1, -, -⟩ := mergeOnName_mem _ _ _ x hx
    simp only [battersConcat, List.mem_append, List.mem_map] at h1
    rcases h1 with ⟨r, hr, hx1⟩ | ⟨r, hr, hx1⟩
    · left; rw [← hx1]; exact hr
    · right; rw [← hx1]; exact hr
  · intro x hx
    obtain ⟨h1, -, -⟩ := mergeOnName_mem _ _ _ x hx
    simp only [pitchersConcat, List.mem_append, List.mem_map] at h1
    rcases h1 with ⟨r, hr, hx1⟩ | ⟨r, hr, hx1⟩
    · left; rw [← hx1]; exact hr
    · right; rw [← hx1]; exact hr
  · intro h1 h2
    have ha : b.awayBatters.drop 1 = [] := List.drop_eq_nil_of_le h1
    have hh : b.homeBatters.drop 1 = [] := List.drop_eq_nil_of_le h2
    simp [batting_stats_records, batters_box_df, battersConcat,
      mergeOnName, ha, hh]
  · intro h1 h2
    have ha : b.awayPitchers.drop 1 = [] := List.drop_eq_nil_of_le h1
    have hh : b.homePitchers.drop 1 = [] := List.drop_eq_nil_of_le h2
    simp [pitching_stats_records, pitchers_box_df, pitchersConcat,
      mergeOnName, ha, hh]

/-- Witness for `c9_drop_first`: a boxscore whose raw tables hold only
the header rows yields empty record lists. -/
theorem c9_drop_first_witness :
    batting_stats_records boxShort = [] ∧
    pitching_stats_records boxShort = [] :=
  ⟨(c9_drop_first boxShort).2.2.1 (by decide) (by decide),
   (c9_drop_first boxShort).2.2.2 (by decide) (by decide)⟩

end MoA
